import Mathlib

/-!
Verification development for the foreman task-queue supervisor
(foreman-run.py).  The Python source is shallowly embedded: strings are
lists of characters, regular-expression matching is implemented directly
for the fixed patterns the program uses, the persisted JSON state is an
association list, and the main watch-loop body is a pure step function
from an observation of the environment (process exit codes, agent status
text, directory contents) to a new supervisor state plus a list of
emitted effects (process spawns, archive moves, symlink removals, state
saves).
-/

namespace Foreman

/-- ASCII model of the whitespace class used by the regular expressions
and by str.strip in the source. -/
def isWS (c : Char) : Bool :=
  c = ' ' || c = '\t' || c = '\n' || c = '\r' || c = '\x0b' || c = '\x0c'

/-- Numeric value of a digit run, as int(...) does on the captured group. -/
def digitsToNat (cs : List Char) : Nat :=
  cs.foldl (fun acc c => acc * 10 + (c.toNat - 48)) 0

/-- Drop an exact literal prefix, returning the remainder when it is present. -/
def stripPrefixL : List Char → List Char → Option (List Char)
  | [], cs => some cs
  | _ :: _, [] => none
  | p :: ps, c :: cs => if p = c then stripPrefixL ps cs else none

/-- Substring containment, modelling the Python in operator on str. -/
def containsSub (pat : List Char) : List Char → Bool
  | [] => pat.isEmpty
  | c :: cs => pat.isPrefixOf (c :: cs) || containsSub pat cs

/-- Source line 74: the pattern Progress: N/M complete, attempted at one
position of the status text (re.search tries every start position). -/
def matchProgressAt (cs : List Char) : Option (Nat × Nat) :=
  match stripPrefixL "Progress:".data cs with
  | none => none
  | some r1 =>
    let r2 := r1.dropWhile isWS
    let ds1 := r2.takeWhile Char.isDigit
    let r3 := r2.dropWhile Char.isDigit
    if ds1.isEmpty then none else
    match r3 with
    | '/' :: r4 =>
      let ds2 := r4.takeWhile Char.isDigit
      let r5 := r4.dropWhile Char.isDigit
      if ds2.isEmpty then none else
      let r6 := r5.dropWhile isWS
      if "complete".data.isPrefixOf r6 then some (digitsToNat ds1, digitsToNat ds2)
      else none
    | _ => none

/-- Leftmost search for the primary progress pattern. -/
def searchProgress : List Char → Option (Nat × Nat)
  | [] => none
  | c :: cs =>
    match matchProgressAt (c :: cs) with
    | some r => some r
    | none => searchProgress cs

/-- Source lines 167-173, fallback pattern: a multiline match of
whitespace, digits, a dot, whitespace, then one captured non-space
character.  Attempted at one position (which must be a line start);
returns the captured character and the rest of the input. -/
def fallbackMatchAt : List Char → Option (Char × List Char)
  | [] => none
  | c0 :: cs0 =>
    if !isWS c0 then none else
    let r1 := cs0.dropWhile isWS
    match r1 with
    | [] => none
    | d0 :: r1x =>
      if !d0.isDigit then none else
      let r2 := r1x.dropWhile Char.isDigit
      match r2 with
      | [] => none
      | p :: r3 =>
        if p ≠ '.' then none else
        match r3 with
        | [] => none
        | w :: r4 =>
          if !isWS w then none else
          let r5 := r4.dropWhile isWS
          match r5 with
          | [] => none
          | d :: rest => if isWS d then none else some (d, rest)

theorem fallbackMatchAt_len {cs : List Char} {d : Char} {rest : List Char}
    (h : fallbackMatchAt cs = some (d, rest)) : rest.length < cs.length := by
  match cs with
  | [] => simp [fallbackMatchAt] at h
  | c0 :: cs0 =>
    simp only [fallbackMatchAt] at h
    by_cases h0 : isWS c0
    · simp [h0] at h
      rcases hr1 : cs0.dropWhile isWS with _ | ⟨d0, r1x⟩ <;> rw [hr1] at h
      · simp at h
      · by_cases hd0 : d0.isDigit
        · simp [hd0] at h
          rcases hr2 : r1x.dropWhile Char.isDigit with _ | ⟨p, r3⟩ <;> rw [hr2] at h
          · simp at h
          · by_cases hp : p = '.'
            · simp [hp] at h
              rcases hr3 : r3 with _ | ⟨w, r4⟩ <;> rw [hr3] at h
              · simp at h
              · by_cases hw : isWS w
                · simp [hw] at h
                  rcases hr5 : r4.dropWhile isWS with _ | ⟨e, rest0⟩ <;> rw [hr5] at h
                  · simp at h
                  · by_cases he : isWS e
                    · simp [he] at h
                    · simp [he] at h
                      -- chase the length bounds down the suffix chain
                      have l5 : rest0.length < r4.length := by
                        have := (List.dropWhile_sublist (l := r4) isWS).length_le
                        rw [hr5] at this; simp at this; omega
                      have l3 : r4.length < r1x.length := by
                        have := (List.dropWhile_sublist (l := r1x) Char.isDigit).length_le
                        rw [hr2, hr3] at this; simp at this; omega
                      have l1 : r1x.length < cs0.length + 1 := by
                        have := (List.dropWhile_sublist (l := cs0) isWS).length_le
                        rw [hr1] at this; simp at this; omega
                      have hre : rest0 = rest := h.2
                      simp [← hre, List.length_cons]
                      omega
                · simp [hw] at h
            · simp [hp] at h
        · simp [hd0] at h
    · simp [h0] at h

/-- Source: re.findall of the fallback pattern with re.MULTILINE over the
whole status text.  The scan walks the text; a match may only begin at a
line start (position 0 or just after a newline), and scanning resumes
after the captured character of each match.  Fuel keeps the recursion
structural; by fallbackMatchAt_len a fuel of the text length suffices. -/
def fallbackScanF (fuel : Nat) (cs : List Char) (atStart : Bool) : List Char :=
  match fuel with
  | 0 => []
  | fuel + 1 =>
    match cs with
    | [] => []
    | c :: cs0 =>
      if atStart then
        match fallbackMatchAt (c :: cs0) with
        | some (d, rest) => d :: fallbackScanF fuel rest false
        | none => fallbackScanF fuel cs0 (c = '\n')
      else fallbackScanF fuel cs0 (c = '\n')

def fallbackScan (cs : List Char) (atStart : Bool) : List Char :=
  fallbackScanF cs.length cs atStart

/-- Source lines 155-175: parse_progress.  Primary pattern first; on
failure, count task lines (the checkmark marks completed items). -/
def parse_progress (status : List Char) : Option (Nat × Nat) :=
  match searchProgress status with
  | some r => some r
  | none =>
    let task_lines := fallbackScan status true
    if task_lines.isEmpty then none
    else some (task_lines.countP (fun c => c = '✅'), task_lines.length)

/-- Source line 178. -/
def is_no_active_loop (status : List Char) : Bool :=
  containsSub "No active loop".data status

/-- Source lines 182-187: is_all_complete.  A parsed pair is always
truthy in Python (even (0,0)), so the total and equality tests run
whenever parse_progress returns a pair. -/
def is_all_complete (status : List Char) : Bool :=
  match parse_progress status with
  | some (done, total) => total > 0 && done = total
  | none => false

/-- Model of the regular-expression tail .+\.md followed by the end
anchor.  The dot does not match a newline, and the Python end anchor
also matches just before one trailing newline. -/
def dotPlusMdEnd (r : List Char) : Bool :=
  let core := match r.getLast? with
    | some c => if c = '\n' then r.dropLast else r
    | none => r
  ".md".data.reverse.isPrefixOf core.reverse && decide (4 ≤ core.length)
    && !core.contains '\n'

/-- Source line 58, PRD_PATTERN: prd-{digits}-{anything}.md with the
captured digit group converted by int(...). -/
def prdMatch (name : List Char) : Option Nat :=
  match stripPrefixL "prd-".data name with
  | none => none
  | some r1 =>
    let ds := r1.takeWhile Char.isDigit
    let r2 := r1.dropWhile Char.isDigit
    if ds.isEmpty then none else
    match r2 with
    | '-' :: r3 => if dotPlusMdEnd r3 then some (digitsToNat ds) else none
    | _ => none

/-- Source line 61, TODO_TASK_PATTERN: todo-{anything}.md or
plan-{anything}.md. -/
def todoTaskMatch (name : List Char) : Bool :=
  match stripPrefixL "todo-".data name with
  | some r => dotPlusMdEnd r
  | none =>
    match stripPrefixL "plan-".data name with
    | some r => dotPlusMdEnd r
    | none => false

/-- Source lines 104-111, extract_passes: the pattern \.p(\d+)\.md
anchored at the end, attempted at one start position. -/
def matchPassAt (cs : List Char) : Option Nat :=
  match cs with
  | '.' :: 'p' :: rest =>
    let ds := rest.takeWhile Char.isDigit
    let r2 := rest.dropWhile Char.isDigit
    if ds.isEmpty then none
    else if r2 = ['.', 'm', 'd'] || r2 = ['.', 'm', 'd', '\n'] then some (digitsToNat ds)
    else none
  | _ => none

def searchPass : List Char → Option Nat
  | [] => none
  | c :: cs =>
    match matchPassAt (c :: cs) with
    | some n => some n
    | none => searchPass cs

def extract_passes (name : List Char) : Nat :=
  (searchPass name).getD 1

/-- A directory entry of the queue directory: its filename, whether the
entry resolves (broken symlinks do not), and its modification time. -/
structure Entry where
  name : String
  resolves : Bool
  mtime : Nat
deriving DecidableEq, Repr

inductive JobType
  | prd
  | todo
deriving DecidableEq, Repr

/-- Source lines 125-133: one pass over the directory entries, keeping
iteration order, pairing PRD entries with their number and todo or plan
entries with their modification time. -/
def scanClassify : List Entry → List (Nat × Entry) × List (Nat × Entry)
  | [] => ([], [])
  | e :: es =>
    let r := scanClassify es
    if !e.resolves then r
    else
      match prdMatch e.name.data with
      | some n => ((n, e) :: r.1, r.2)
      | none =>
        if todoTaskMatch e.name.data then (r.1, (e.mtime, e) :: r.2) else r

theorem scanClassify_cons_notres {e : Entry} {es : List Entry}
    (h : e.resolves = false) : scanClassify (e :: es) = scanClassify es := by
  simp [scanClassify, h]

theorem scanClassify_cons_prd {e : Entry} {es : List Entry} {n : Nat}
    (h : e.resolves = true) (hm : prdMatch e.name.data = some n) :
    scanClassify (e :: es) =
      ((n, e) :: (scanClassify es).1, (scanClassify es).2) := by
  simp [scanClassify, h, hm]

theorem scanClassify_cons_todo {e : Entry} {es : List Entry}
    (h : e.resolves = true) (hm : prdMatch e.name.data = none)
    (ht : todoTaskMatch e.name.data = true) :
    scanClassify (e :: es) =
      ((scanClassify es).1, (e.mtime, e) :: (scanClassify es).2) := by
  simp [scanClassify, h, hm, ht]

theorem scanClassify_cons_other {e : Entry} {es : List Entry}
    (h : e.resolves = true) (hm : prdMatch e.name.data = none)
    (ht : todoTaskMatch e.name.data = false) :
    scanClassify (e :: es) = scanClassify es := by
  simp [scanClassify, h, hm, ht]

/-- Stable insertion by key: the new element goes after every element
already placed whose key is less than or equal, matching Python's stable
list.sort. -/
def insertLeKey (key : α → Nat) (x : α) : List α → List α
  | [] => [x]
  | y :: ys => if key y ≤ key x then y :: insertLeKey key x ys else x :: y :: ys

def stableSortBy (key : α → Nat) (l : List α) : List α :=
  l.foldl (fun acc x => insertLeKey key x acc) []

def scanPrds (entries : List Entry) : List (Nat × Entry) :=
  stableSortBy (fun x => x.1) (scanClassify entries).1

def scanTodos (entries : List Entry) : List (Nat × Entry) :=
  stableSortBy (fun x => x.1) (scanClassify entries).2

/-- Source lines 114-136, scan_todo: classify, sort each group, PRDs
first. -/
def scan_todo (todoDirExists : Bool) (entries : List Entry) : List (Entry × JobType) :=
  if !todoDirExists then [] else
  (scanPrds entries).map (fun x => (x.2, JobType.prd))
    ++ (scanTodos entries).map (fun x => (x.2, JobType.todo))

theorem mem_insertLeKey {key : α → Nat} {x z : α} {l : List α} :
    z ∈ insertLeKey key x l ↔ z = x ∨ z ∈ l := by
  induction l with
  | nil => simp [insertLeKey]
  | cons y ys ih =>
    by_cases h : key y ≤ key x
    · simp [insertLeKey, h, ih]
      try tauto
    · simp [insertLeKey, h, ih]
      try tauto

theorem insertLeKey_sorted {key : α → Nat} {x : α} {l : List α}
    (h : l.Pairwise (fun a b => key a ≤ key b)) :
    (insertLeKey key x l).Pairwise (fun a b => key a ≤ key b) := by
  induction l with
  | nil => simp [insertLeKey]
  | cons y ys ih =>
    rcases List.pairwise_cons.mp h with ⟨hy, hys⟩
    by_cases hk : key y ≤ key x
    · simp only [insertLeKey, hk, if_pos]
      refine List.pairwise_cons.mpr ⟨?_, ih hys⟩
      intro z hz
      rcases mem_insertLeKey.mp hz with rfl | hz
      · exact hk
      · exact hy z hz
    · simp only [insertLeKey, hk, if_neg, not_false_iff]
      refine List.pairwise_cons.mpr ⟨?_, h⟩
      intro z hz
      rcases List.mem_cons.mp hz with rfl | hz
      · omega
      · have := hy z hz
        omega

theorem stableSortBy_go_sorted {key : α → Nat} (l acc : List α)
    (hacc : acc.Pairwise (fun a b => key a ≤ key b)) :
    (l.foldl (fun acc x => insertLeKey key x acc) acc).Pairwise
      (fun a b => key a ≤ key b) := by
  induction l generalizing acc with
  | nil => simpa using hacc
  | cons x xs ih => exact ih _ (insertLeKey_sorted hacc)

theorem stableSortBy_sorted {key : α → Nat} (l : List α) :
    (stableSortBy key l).Pairwise (fun a b => key a ≤ key b) :=
  stableSortBy_go_sorted l [] (by simp)

theorem mem_stableSortBy_go {key : α → Nat} {z : α} (l acc : List α) :
    z ∈ l.foldl (fun acc x => insertLeKey key x acc) acc ↔ z ∈ acc ∨ z ∈ l := by
  induction l generalizing acc with
  | nil => simp
  | cons x xs ih =>
    simp only [List.foldl_cons, ih, mem_insertLeKey, List.mem_cons]
    tauto

theorem mem_stableSortBy {key : α → Nat} {z : α} (l : List α) :
    z ∈ stableSortBy key l ↔ z ∈ l := by
  simp [stableSortBy, mem_stableSortBy_go]

theorem mem_scanClassify_fst {entries : List Entry} {n : Nat} {e : Entry} :
    (n, e) ∈ (scanClassify entries).1 ↔
      e ∈ entries ∧ e.resolves = true ∧ prdMatch e.name.data = some n := by
  induction entries with
  | nil => simp [scanClassify]
  | cons x xs ih =>
    have skip : ((n, e) ∈ (scanClassify xs).1 ↔
        e ∈ xs ∧ e.resolves = true ∧ prdMatch e.name.data = some n) →
        (e = x → ¬(e.resolves = true ∧ prdMatch e.name.data = some n)) →
        ((n, e) ∈ (scanClassify xs).1 ↔
          e ∈ x :: xs ∧ e.resolves = true ∧ prdMatch e.name.data = some n) := by
      intro hih hcontra
      rw [hih]
      constructor
      · rintro ⟨h1, h2, h3⟩; exact ⟨List.mem_cons_of_mem _ h1, h2, h3⟩
      · rintro ⟨h1, h2, h3⟩
        rcases List.mem_cons.mp h1 with rfl | h1
        · exact absurd ⟨h2, h3⟩ (hcontra rfl)
        · exact ⟨h1, h2, h3⟩
    rcases hres : x.resolves with _ | _
    · rw [scanClassify_cons_notres hres]
      exact skip ih (by rintro rfl ⟨h2, _⟩; rw [hres] at h2; cases h2)
    · rcases hm : prdMatch x.name.data with _ | k
      · by_cases ht : todoTaskMatch x.name.data = true
        · rw [scanClassify_cons_todo hres hm ht]
          exact skip ih (by rintro rfl ⟨_, h3⟩; rw [hm] at h3; cases h3)
        · rw [scanClassify_cons_other hres hm (by simpa using ht)]
          exact skip ih (by rintro rfl ⟨_, h3⟩; rw [hm] at h3; cases h3)
      · rw [scanClassify_cons_prd hres hm]
        constructor
        · intro h
          rcases List.mem_cons.mp h with heq | h
          · obtain ⟨rfl, rfl⟩ := Prod.mk.injEq .. ▸ heq
            exact ⟨List.mem_cons_self .., hres, hm⟩
          · rcases ih.mp h with ⟨h1, h2, h3⟩
            exact ⟨List.mem_cons_of_mem _ h1, h2, h3⟩
        · rintro ⟨h1, h2, h3⟩
          rcases List.mem_cons.mp h1 with rfl | h1
          · rw [hm] at h3
            obtain rfl := Option.some.injEq .. ▸ h3
            exact List.mem_cons_self ..
          · exact List.mem_cons_of_mem _ (ih.mpr ⟨h1, h2, h3⟩)

theorem mem_scanClassify_snd {entries : List Entry} {m : Nat} {e : Entry} :
    (m, e) ∈ (scanClassify entries).2 ↔
      e ∈ entries ∧ e.resolves = true ∧ prdMatch e.name.data = none ∧
        todoTaskMatch e.name.data = true ∧ m = e.mtime := by
  induction entries with
  | nil => simp [scanClassify]
  | cons x xs ih =>
    have skip : ((m, e) ∈ (scanClassify xs).2 ↔
        e ∈ xs ∧ e.resolves = true ∧ prdMatch e.name.data = none ∧
          todoTaskMatch e.name.data = true ∧ m = e.mtime) →
        (e = x → ¬(e.resolves = true ∧ prdMatch e.name.data = none ∧
          todoTaskMatch e.name.data = true)) →
        ((m, e) ∈ (scanClassify xs).2 ↔
          e ∈ x :: xs ∧ e.resolves = true ∧ prdMatch e.name.data = none ∧
            todoTaskMatch e.name.data = true ∧ m = e.mtime) := by
      intro hih hcontra
      rw [hih]
      constructor
      · rintro ⟨h1, h2, h3, h4, h5⟩
        exact ⟨List.mem_cons_of_mem _ h1, h2, h3, h4, h5⟩
      · rintro ⟨h1, h2, h3, h4, h5⟩
        rcases List.mem_cons.mp h1 with rfl | h1
        · exact absurd ⟨h2, h3, h4⟩ (hcontra rfl)
        · exact ⟨h1, h2, h3, h4, h5⟩
    rcases hres : x.resolves with _ | _
    · rw [scanClassify_cons_notres hres]
      exact skip ih (by rintro rfl ⟨h2, _⟩; rw [hres] at h2; cases h2)
    · rcases hm : prdMatch x.name.data with _ | k
      · by_cases ht : todoTaskMatch x.name.data = true
        · rw [scanClassify_cons_todo hres hm ht]
          constructor
          · intro h
            rcases List.mem_cons.mp h with heq | h
            · obtain ⟨rfl, rfl⟩ := Prod.mk.injEq .. ▸ heq
              exact ⟨List.mem_cons_self .., hres, hm, ht, rfl⟩
            · rcases ih.mp h with ⟨h1, h2, h3, h4, h5⟩
              exact ⟨List.mem_cons_of_mem _ h1, h2, h3, h4, h5⟩
          · rintro ⟨h1, h2, h3, h4, h5⟩
            rcases List.mem_cons.mp h1 with rfl | h1
            · subst h5; exact List.mem_cons_self ..
            · exact List.mem_cons_of_mem _ (ih.mpr ⟨h1, h2, h3, h4, h5⟩)
        · rw [scanClassify_cons_other hres hm (by simpa using ht)]
          exact skip ih
            (by rintro rfl ⟨_, _, h4⟩; exact ht h4)
      · rw [scanClassify_cons_prd hres hm]
        exact skip ih
          (by rintro rfl ⟨_, h3, _⟩; rw [hm] at h3; cases h3)

example : prdMatch "prd-07-my-feature.md".data = some 7 := by decide
example : prdMatch "prd-3-a.md".data = some 3 := by decide
example : prdMatch "todo-xxx.md".data = none := by decide
example : todoTaskMatch "todo-xxx.md".data = true := by decide
example : todoTaskMatch "plan-xxx.md".data = true := by decide
example : todoTaskMatch "prd-07-x.md".data = false := by decide
example : extract_passes "todo-slug.p2.md".data = 2 := by decide
example : extract_passes "todo-slug.md".data = 1 := by decide
example :
    scan_todo true [⟨"prd-7-b.md", true, 5⟩, ⟨"prd-3-a.md", true, 9⟩] =
      [(⟨"prd-3-a.md", true, 9⟩, JobType.prd), (⟨"prd-7-b.md", true, 5⟩, JobType.prd)] := by
  decide

/-- Python str.strip over the ASCII whitespace class. -/
def pyStrip (cs : List Char) : List Char :=
  ((cs.dropWhile isWS).reverse.dropWhile isWS).reverse

/-- Character-class membership by code point (48 is the digit zero). -/
def inRange (lo hi : Nat) (c : Char) : Bool :=
  lo ≤ c.toNat && c.toNat ≤ hi

/-- The strptime directive for a 12-hour-clock hour: one or two digits,
alternatives tried in the order 1[0-2], 0[1-9], [1-9]. -/
def parseI : List Char → Option (Nat × List Char)
  | '1' :: c :: rest =>
    if inRange 48 50 c then some (10 + (c.toNat - 48), rest)
    else some (1, c :: rest)
  | '0' :: c :: rest =>
    if inRange 49 57 c then some (c.toNat - 48, rest) else none
  | [c] => if inRange 49 57 c then some (c.toNat - 48, []) else none
  | c :: rest =>
    if inRange 49 57 c then some (c.toNat - 48, rest) else none
  | [] => none

/-- The strptime directive for minutes: [0-5] followed by a digit, or a
single digit. -/
def parseM : List Char → Option (Nat × List Char)
  | c1 :: c2 :: rest =>
    if inRange 48 53 c1 && inRange 48 57 c2 then
      some ((c1.toNat - 48) * 10 + (c2.toNat - 48), rest)
    else if inRange 48 57 c1 then some (c1.toNat - 48, c2 :: rest)
    else none
  | [c] => if inRange 48 57 c then some (c.toNat - 48, []) else none
  | [] => none

/-- The strptime AM or PM directive; the input has been uppercased. -/
def parseP : List Char → Option (Bool × List Char)
  | 'A' :: 'M' :: rest => some (false, rest)
  | 'P' :: 'M' :: rest => some (true, rest)
  | _ => none

/-- The strptime hour conversion: PM adds 12 except for 12pm, and 12am
is hour 0. -/
def to24 (h12 : Nat) (pm : Bool) : Nat :=
  if pm then (if h12 ≠ 12 then h12 + 12 else 12)
  else (if h12 = 12 then 0 else h12)

/-- Source line 272-273: strptime of the stripped, uppercased time text
against either %I:%M%p or %I%p (chosen by the presence of a colon); the
whole text must be consumed; returns the 24-hour clock (hour, minute). -/
def parseTimeStr (cs : List Char) : Option (Nat × Nat) :=
  if cs.contains ':' then
    match parseI cs with
    | some (h, r1) =>
      match r1 with
      | ':' :: r2 =>
        match parseM r2 with
        | some (m, r3) =>
          match parseP r3 with
          | some (pm, []) => some (to24 h pm, m)
          | _ => none
        | none => none
      | _ => none
    | none => none
  else
    match parseI cs with
    | some (h, r1) =>
      match parseP r1 with
      | some (pm, []) => some (to24 h pm, 0)
      | none => none
      | some (_, _ :: _) => none
    | none => none

def secondsPerDay : Nat := 86400

/-- Source lines 267-280, parse_reset_datetime.  Datetimes in the named
zone are modelled as wall-clock seconds (now is floored to the second,
which preserves the comparison against a reset instant whose sub-second
fields are zeroed).  An unknown zone name makes ZoneInfo raise, caught
as a parse failure. -/
def parse_reset_datetime (time_str : List Char) (tzOk : Bool) (nowLocal : Nat) :
    Option Nat :=
  if !tzOk then none else
  match parseTimeStr ((pyStrip time_str).map Char.toUpper) with
  | none => none
  | some (h, m) =>
    let reset := (nowLocal / secondsPerDay) * secondsPerDay + h * 3600 + m * 60
    some (if reset ≤ nowLocal then reset + secondsPerDay else reset)

/-- Case-insensitive literal consumption (the pattern is given in lower
case). -/
def ciPrefixDrop : List Char → List Char → Option (List Char)
  | [], cs => some cs
  | _ :: _, [] => none
  | p :: ps, c :: cs => if c.toLower = p then ciPrefixDrop ps cs else none

/-- One am or pm marker, case-insensitively. -/
def matchAmPm : List Char → Option (List Char × List Char)
  | a :: m :: rest =>
    if (a.toLower = 'a' || a.toLower = 'p') && m.toLower = 'm' then
      some ([a, m], rest)
    else none
  | _ => none

/-- A colon followed by exactly two digits. -/
def matchColonMM : List Char → Option (List Char × List Char)
  | ':' :: d1 :: d2 :: rest =>
    if d1.isDigit && d2.isDigit then some ([':', d1, d2], rest) else none
  | _ => none

/-- After the hour digits of the RATE_LIMIT_RE time group: the optional
colon-minutes (tried first, as the regex is greedy) then am or pm. -/
def timeGroupAfterDigits (ds rest : List Char) : Option (List Char × List Char) :=
  match matchColonMM rest with
  | some (cm, r2) =>
    match matchAmPm r2 with
    | some (ap, r3) => some (ds ++ cm ++ ap, r3)
    | none =>
      match matchAmPm rest with
      | some (ap, r3) => some (ds ++ ap, r3)
      | none => none
  | none =>
    match matchAmPm rest with
    | some (ap, r3) => some (ds ++ ap, r3)
    | none => none

/-- The first capture group of RATE_LIMIT_RE: one or two digits (two
tried first), the optional minutes, then am or pm. -/
def matchTimeGroup : List Char → Option (List Char × List Char)
  | d1 :: d2 :: rest =>
    if d1.isDigit then
      if d2.isDigit then
        match timeGroupAfterDigits [d1, d2] rest with
        | some r => some r
        | none => timeGroupAfterDigits [d1] (d2 :: rest)
      else timeGroupAfterDigits [d1] (d2 :: rest)
    else none
  | [d1] => if d1.isDigit then timeGroupAfterDigits [d1] [] else none
  | [] => none

/-- After the time group: whitespace, an opening parenthesis, the
non-empty zone-name group of characters other than a closing
parenthesis, and the closing parenthesis. -/
def matchZonePart (cs : List Char) : Option (List Char) :=
  match cs with
  | c :: rest =>
    if isWS c then
      let r1 := rest.dropWhile isWS
      match r1 with
      | '(' :: r2 =>
        let z := r2.takeWhile (fun c => c ≠ ')')
        let r3 := r2.dropWhile (fun c => c ≠ ')')
        if z.isEmpty then none else
        match r3 with
        | ')' :: _ => some z
        | _ => none
      | _ => none
    else none
  | [] => none

/-- After the literal resets: whitespace, the time group, then the zone
part; yields the two capture groups. -/
def matchAfterResets (cs : List Char) : Option (List Char × List Char) :=
  match cs with
  | c :: rest =>
    if isWS c then
      let r1 := rest.dropWhile isWS
      match matchTimeGroup r1 with
      | some (t, r2) =>
        match matchZonePart r2 with
        | some z => some (t, z)
        | none => none
      | none => none
    else none
  | [] => none

def tryResetsAt (cs : List Char) : Option (List Char × List Char) :=
  match ciPrefixDrop "resets".data cs with
  | some r => matchAfterResets r
  | none => none

/-- Greedy [^\n]* between the limit phrase and resets: the latest start
of resets within the newline-free span is tried first. -/
def tryOffsetsRev (revPre suffix : List Char) : Option (List Char × List Char) :=
  match tryResetsAt suffix with
  | some r => some r
  | none =>
    match revPre with
    | [] => none
    | c :: revPre2 => tryOffsetsRev revPre2 (c :: suffix)

def matchFromHit (cs : List Char) : Option (List Char × List Char) :=
  match ciPrefixDrop "hit your limit".data cs with
  | some rest =>
    let noNl := rest.takeWhile (fun c => c ≠ '\n')
    let tail := rest.drop noNl.length
    tryOffsetsRev noNl.reverse tail
  | none => none

/-- Source lines 73-76, RATE_LIMIT_RE searched over one output line:
leftmost position where the whole pattern matches; returns the captured
time text and zone name. -/
def rateLimitSearch : List Char → Option (List Char × List Char)
  | [] => none
  | c :: cs =>
    match matchFromHit (c :: cs) with
    | some r => some r
    | none => rateLimitSearch cs

/-- The accumulating rate-limit observation of a run (source line 334). -/
structure RLInfo where
  detected : Bool
  reset : Option Nat
deriving DecidableEq, Repr

/-- Source lines 283-298, the body of the reader thread for one line:
once detected, later lines are ignored; a match stores the detection
flag and whatever parse_reset_datetime produced.  The zone database and
current local time are environment parameters. -/
def detectLine (zoneOk : List Char → Bool) (nowLocal : Nat)
    (info : RLInfo) (line : List Char) : RLInfo :=
  if info.detected then info
  else
    match rateLimitSearch line with
    | some (t, z) =>
      { detected := true, reset := parse_reset_datetime t (zoneOk z) nowLocal }
    | none => info

/-- The whole-run observation: the per-line detector folded over the
streamed output lines. -/
def pipeOutput (zoneOk : List Char → Bool) (nowLocal : Nat)
    (lines : List (List Char)) : RLInfo :=
  lines.foldl (detectLine zoneOk nowLocal) { detected := false, reset := none }

example :
    rateLimitSearch "You've hit your limit · resets 1pm (Asia/Taipei)".data =
      some ("1pm".data, "Asia/Taipei".data) := by decide

example : parseTimeStr "1PM".data = some (13, 0) := by decide
example : parseTimeStr "1:30PM".data = some (13, 30) := by decide
example : parseTimeStr "12AM".data = some (0, 0) := by decide
example : parseTimeStr "13PM".data = none := by decide

example :
    parse_reset_datetime "1pm".data true (20000 * secondsPerDay + 11 * 3600) =
      some (20000 * secondsPerDay + 13 * 3600) := by decide

example :
    parse_reset_datetime "1pm".data true (20000 * secondsPerDay + 14 * 3600) =
      some (20001 * secondsPerDay + 13 * 3600) := by decide

/-- Source line 64, the completion marker claude must emit. -/
def COMPLETE_SIGNAL : List Char := "<prompt>COMPLETE</prompt>".data

/-- Source lines 301-312: the reader thread sets the complete flag when
any streamed line contains the marker; at process exit the flag equals
this predicate over the captured lines. -/
def pipeClaudeComplete (lines : List (List Char)) : Bool :=
  lines.any (fun l => containsSub COMPLETE_SIGNAL l)

/-- A JSON value as stored in the persisted state file. -/
inductive JVal
  | jnull
  | jstr (s : String)
  | jint (n : Int)
deriving DecidableEq, Repr

/-- The persisted state dict, as an insertion-ordered association list
(Python dict semantics: assignment updates in place or appends). -/
abbrev StateDict := List (String × JVal)

def dictSet (d : StateDict) (k : String) (v : JVal) : StateDict :=
  if d.any (fun kv => kv.1 = k) then
    d.map (fun kv => if kv.1 = k then (k, v) else kv)
  else d ++ [(k, v)]

def dictFind (d : StateDict) (k : String) : Option JVal :=
  (d.find? (fun kv => kv.1 = k)).map (fun kv => kv.2)

/-- Python dict.get with an int default, as used for the retry counters. -/
def dictGetInt (d : StateDict) (k : String) (dflt : Int) : Int :=
  match dictFind d k with
  | some (JVal.jint n) => n
  | _ => dflt

/-- Python dict.get with a default value returned only when the key is
absent. -/
def stateGetD (d : StateDict) (k : String) (dflt : JVal) : JVal :=
  (dictFind d k).getD dflt

/-- Python truthiness of a looked-up value (None and the empty string
are falsy). -/
def jtruthy : Option JVal → Bool
  | some (JVal.jstr s) => decide (s ≠ "")
  | some (JVal.jint n) => decide (n ≠ 0)
  | some JVal.jnull => false
  | none => false

/-- Source line 97, the default state when the file is missing or
corrupt. -/
def initState : StateDict := [("in_progress", JVal.jnull)]

/-- The in-memory supervisor variables of main (source lines 540-551). -/
structure Sup where
  state : StateDict
  hasProc : Bool
  currentPrd : Option String
  currentJobType : Option JobType
  currentPass : Nat
  currentNumPasses : Nat
deriving DecidableEq, Repr

/-- The CLI options the loop body reads. -/
structure Args where
  maxRetries : Int
  maxErrorRetries : Int
deriving DecidableEq, Repr

/-- Externally observable actions of one loop iteration. -/
inductive Effect
  | save (d : StateDict)
  | spawnRalph (task : String)
  | spawnClaude (task : String) (passNum : Nat) ( verify : Bool)
  | archiveRalph (task : String)
  | archiveTodo (task : String) (success : Bool)
  | removeSymlink (task : String)
  | backupStale
  | sleepUntilReset (reset : Option Nat)
  | scanned
deriving DecidableEq, Repr

/-- One tick's observation of the outside world: the poll result of the
spawned process, the lines its reader thread has streamed, the agent
status text, the queue directory, and the timers. -/
structure Env where
  exitCode : Option Int
  outLines : List (List Char)
  ralphLines : List (List Char)
  zoneOk : List Char → Bool
  nowLocal : Nat
  status : List Char
  statusDue : Bool
  entries : List Entry
  todoDirExists : Bool
  ralphActive : Bool

/-- The instruction kind selected by the verify flag of
start_claude_pass (source lines 343-362). -/
inductive Instr
  | implement
  | verify
deriving DecidableEq, Repr

def start_claude_pass_instr ( verify : Bool) : Instr :=
  if verify then Instr.verify else Instr.implement

def taskOf (s : Sup) : String :=
  match s.currentPrd with
  | some t => t
  | none => ""

/-- Source lines 396-416, handle_finished_job: archive and unqueue only
on success; always clear and save in_progress. -/
def handle_finished_job (task : String) (st : StateDict) (success : Bool) :
    StateDict × List Effect :=
  let st2 := dictSet st "in_progress" JVal.jnull
  if success then
    (st2, [Effect.archiveRalph task, Effect.removeSymlink task, Effect.save st2])
  else
    (st2, [Effect.save st2])

/-- Source lines 630-675: a claude pass of the active direct-prompt job
has exited. -/
def tickTodoExit (env : Env) (s : Sup) : Sup × List Effect :=
  let complete := pipeClaudeComplete env.outLines
  if s.currentPass < s.currentNumPasses then
    let nextPass := s.currentPass + 1
    let isVerify := decide (nextPass = s.currentNumPasses) && decide (1 < s.currentNumPasses)
    ({ s with currentPass := nextPass },
     [Effect.spawnClaude (taskOf s) nextPass isVerify])
  else
    let success := complete
    let st := dictSet s.state "in_progress" JVal.jnull
    ({ state := st
       hasProc := false
       currentPrd := none
       currentJobType := none
       currentPass := 0
       currentNumPasses := 1 },
     [Effect.archiveTodo (taskOf s) success, Effect.removeSymlink (taskOf s),
      Effect.save st])

/-- Source lines 677-755: the ralph process of the active iterative job
has exited with the given code. -/
def tickPrdExit (args : Args) (env : Env) (s : Sup) (code : Int) :
    Sup × List Effect :=
  let success := is_all_complete env.status
  let rl := pipeOutput env.zoneOk env.nowLocal env.ralphLines
  if rl.detected then
    (s, [Effect.sleepUntilReset rl.reset, Effect.spawnRalph (taskOf s)])
  else if success = false ∧ code = 0 then
    let retry := dictGetInt s.state "retry_count" 0 + 1
    if args.maxRetries = 0 ∨ retry ≤ args.maxRetries then
      let st := dictSet s.state "retry_count" (JVal.jint retry)
      ({ s with state := st }, [Effect.save st, Effect.spawnRalph (taskOf s)])
    else
      let r := handle_finished_job (taskOf s) s.state false
      ({ s with state := r.1, hasProc := false, currentPrd := none }, r.2)
  else if code ≠ 0 then
    let errc := dictGetInt s.state "error_retry_count" 0 + 1
    if 0 < args.maxErrorRetries ∧ errc ≤ args.maxErrorRetries then
      let st := dictSet s.state "error_retry_count" (JVal.jint errc)
      ({ s with state := st }, [Effect.save st, Effect.spawnRalph (taskOf s)])
    else
      let r := handle_finished_job (taskOf s) s.state false
      ({ s with state := r.1, hasProc := false, currentPrd := none }, r.2)
  else
    let r := handle_finished_job (taskOf s) s.state true
    ({ s with state := r.1, hasProc := false, currentPrd := none }, r.2)

/-- Source lines 622-788, sections A, B and C of the loop body: react to
a finished process, poll a resumed job, or do nothing while the process
runs. -/
def tickMain (args : Args) (env : Env) (s : Sup) : Sup × List Effect :=
  if s.hasProc then
    match env.exitCode with
    | some code =>
      match s.currentJobType with
      | some JobType.todo => tickTodoExit env s
      | _ => tickPrdExit args env s code
    | none => (s, [])
  else if s.currentPrd ≠ none ∧ s.currentJobType = some JobType.prd then
    if env.statusDue then
      if is_no_active_loop env.status then
        let r := handle_finished_job (taskOf s) s.state (is_all_complete env.status)
        ({ s with state := r.1, currentPrd := none, currentJobType := none }, r.2)
      else (s, [])
    else (s, [])
  else (s, [])

/-- Source lines 791-841, section D: when idle, scan the queue and start
at most the head task (the loop breaks after the first element). -/
def tickScan (env : Env) (s : Sup) : Sup × List Effect :=
  match scan_todo env.todoDirExists env.entries with
  | [] => (s, [Effect.scanned])
  | (e, JobType.prd) :: _ =>
    if env.ralphActive then (s, [Effect.scanned])
    else
      let st := dictSet (dictSet (dictSet (dictSet s.state
        "in_progress" (JVal.jstr e.name))
        "job_type" (JVal.jstr "prd"))
        "retry_count" (JVal.jint 0))
        "error_retry_count" (JVal.jint 0)
      ({ s with
          state := st
          hasProc := true
          currentPrd := some e.name
          currentJobType := some JobType.prd },
       [Effect.scanned, Effect.backupStale, Effect.save st, Effect.spawnRalph e.name])
  | (e, JobType.todo) :: _ =>
    let np := extract_passes e.name.data
    let st := dictSet (dictSet s.state
      "in_progress" (JVal.jstr e.name))
      "job_type" (JVal.jstr "todo")
    ({ s with
        state := st
        hasProc := true
        currentPrd := some e.name
        currentJobType := some JobType.todo
        currentPass := 1
        currentNumPasses := np },
     [Effect.scanned, Effect.save st, Effect.spawnClaude e.name 1 false])

/-- One full iteration of the watch loop: sections A, B and C, then
section D when no job is active afterwards. -/
def tick (args : Args) (env : Env) (s : Sup) : Sup × List Effect :=
  let r1 := tickMain args env s
  if r1.1.hasProc = false ∧ r1.1.currentPrd = none then
    let r2 := tickScan env r1.1
    (r2.1, r1.2 ++ r2.2)
  else r1

def runTicks (args : Args) (envs : List Env) (s : Sup) : Sup × List Effect :=
  match envs with
  | [] => (s, [])
  | e :: es =>
    let r1 := tick args e s
    let r2 := runTicks args es r1.1
    (r2.1, r1.2 ++ r2.2)

/-- Source lines 573-613: startup reconciliation of a persisted
in-progress job against live agent status, before the watch loop
starts. -/
def startupReconcile (st : StateDict) (status : List Char) : Sup × List Effect :=
  let s0 : Sup := { state := st
                    hasProc := false
                    currentPrd := none
                    currentJobType := none
                    currentPass := 0
                    currentNumPasses := 1 }
  if jtruthy (dictFind st "in_progress") then
    let prev := match dictFind st "in_progress" with
      | some (JVal.jstr p) => p
      | _ => ""
    if stateGetD st "job_type" (JVal.jstr "prd") = JVal.jstr "todo" then
      let st2 := dictSet st "in_progress" JVal.jnull
      ({ s0 with state := st2 }, [Effect.save st2])
    else
      if is_all_complete status then
        let r := handle_finished_job prev st true
        ({ s0 with state := r.1 }, r.2)
      else if is_no_active_loop status then
        let r := handle_finished_job prev st false
        ({ s0 with state := r.1 }, r.2)
      else
        ({ s0 with currentPrd := some prev, currentJobType := some JobType.prd }, [])
  else (s0, [])

example : parse_progress "Progress: 2/2 complete".data = some (2, 2) := by decide

/-- An idle environment observation: no exit, no output, empty queue. -/
def envBase : Env :=
  { exitCode := none
    outLines := []
    ralphLines := []
    zoneOk := fun _ => false
    nowLocal := 0
    status := []
    statusDue := false
    entries := []
    todoDirExists := false
    ralphActive := false }

/-- The idle supervisor at startup with a fresh state file. -/
def supIdle : Sup :=
  { state := initState
    hasProc := false
    currentPrd := none
    currentJobType := none
    currentPass := 0
    currentNumPasses := 1 }

section ClaimC10

/-- C10: completion is recognized only when parsed progress has a
positive total equal to the done count; a 0/0 progress report, the empty
status (returned when the status command fails or times out), and any
unparseable status are classified as not complete. -/
theorem foreman_C10_completion_guard (status : List Char) :
    (is_all_complete status = true ↔
      ∃ d t, parse_progress status = some (d, t) ∧ 0 < t ∧ d = t)
    ∧ (parse_progress status = none → is_all_complete status = false)
    ∧ parse_progress "Progress: 0/0 complete".data = some (0, 0)
    ∧ is_all_complete "Progress: 0/0 complete".data = false
    ∧ is_all_complete [] = false
    ∧ is_all_complete "ralph status failed".data = false := by
  refine ⟨?_, ?_, by decide, by decide, by decide, by decide⟩
  · unfold is_all_complete
    rcases h : parse_progress status with _ | ⟨d, t⟩
    · simp
    · simp only [gt_iff_lt, Bool.and_eq_true, decide_eq_true_eq,
        Option.some.injEq, Prod.mk.injEq]
      constructor
      · rintro ⟨h1, h2⟩
        exact ⟨d, t, ⟨rfl, rfl⟩, h1, h2⟩
      · rintro ⟨d0, t0, heq, h1, h2⟩
        obtain ⟨rfl, rfl⟩ := heq
        exact ⟨h1, h2⟩
  · intro h
    unfold is_all_complete
    rw [h]

theorem foreman_C10_witness :
    parse_progress "no loop".data = none ∧ is_all_complete "no loop".data = false :=
  ⟨by decide, (foreman_C10_completion_guard "no loop".data).2.1 (by decide)⟩

end ClaimC10

section ClaimC2

/-- C2: scan_todo returns the resolving PRD descriptors (ascending by
number) followed by the resolving todo and plan descriptors (ascending
by modification time); in particular two iterative descriptors with
numbers 3 and 7 always come back in that order, whatever the directory
iteration order was. -/
theorem foreman_C2_queue_ordering (entries : List Entry) :
    (scan_todo true entries =
      (scanPrds entries).map (fun x => (x.2, JobType.prd))
        ++ (scanTodos entries).map (fun x => (x.2, JobType.todo)))
    ∧ (scanPrds entries).Pairwise (fun a b => a.1 ≤ b.1)
    ∧ (scanTodos entries).Pairwise (fun a b => a.1 ≤ b.1)
    ∧ (∀ n e, (n, e) ∈ scanPrds entries ↔
        e ∈ entries ∧ e.resolves = true ∧ prdMatch e.name.data = some n)
    ∧ (∀ m e, (m, e) ∈ scanTodos entries ↔
        e ∈ entries ∧ e.resolves = true ∧ prdMatch e.name.data = none ∧
          todoTaskMatch e.name.data = true ∧ m = e.mtime)
    ∧ (∀ a b na nb, a.resolves = true → b.resolves = true →
        prdMatch a.name.data = some na → prdMatch b.name.data = some nb →
        na < nb →
        scan_todo true [a, b] = [(a, JobType.prd), (b, JobType.prd)] ∧
        scan_todo true [b, a] = [(a, JobType.prd), (b, JobType.prd)]) := by
  refine ⟨rfl, stableSortBy_sorted _, stableSortBy_sorted _, ?_, ?_, ?_⟩
  · intro n e
    exact (mem_stableSortBy _).trans mem_scanClassify_fst
  · intro m e
    exact (mem_stableSortBy _).trans mem_scanClassify_snd
  · intro a b na nb hra hrb hma hmb hlt
    have hab : scanClassify [a, b] = ([(na, a), (nb, b)], []) := by
      rw [scanClassify_cons_prd hra hma, scanClassify_cons_prd hrb hmb]
      simp [scanClassify]
    have hba : scanClassify [b, a] = ([(nb, b), (na, a)], []) := by
      rw [scanClassify_cons_prd hrb hmb, scanClassify_cons_prd hra hma]
      simp [scanClassify]
    constructor
    · simp [scan_todo, scanPrds, scanTodos, hab, stableSortBy, insertLeKey,
        Nat.le_of_lt hlt]
    · simp [scan_todo, scanPrds, scanTodos, hba, stableSortBy, insertLeKey,
        Nat.not_le.mpr hlt]

theorem foreman_C2_witness :
    scan_todo true [⟨"prd-7-b.md", true, 0⟩, ⟨"prd-3-a.md", true, 0⟩] =
      [(⟨"prd-3-a.md", true, 0⟩, JobType.prd), (⟨"prd-7-b.md", true, 0⟩, JobType.prd)] :=
  ((foreman_C2_queue_ordering []).2.2.2.2.2
    ⟨"prd-3-a.md", true, 0⟩ ⟨"prd-7-b.md", true, 0⟩ 3 7
    (by decide) (by decide) (by decide) (by decide) (by decide)).2

end ClaimC2

section ClaimC8

theorem parseI_bounds {cs : List Char} {h12 : Nat} {r : List Char}
    (h : parseI cs = some (h12, r)) : 1 ≤ h12 ∧ h12 ≤ 12 := by
  unfold parseI at h
  split at h
  · split at h <;>
      simp only [inRange, Bool.and_eq_true, decide_eq_true_eq,
        Option.some.injEq, Prod.mk.injEq] at * <;> omega
  · split at h
    · simp only [inRange, Bool.and_eq_true, decide_eq_true_eq,
        Option.some.injEq, Prod.mk.injEq] at *
      omega
    · cases h
  · split at h
    · simp only [inRange, Bool.and_eq_true, decide_eq_true_eq,
        Option.some.injEq, Prod.mk.injEq] at *
      omega
    · cases h
  · split at h
    · simp only [inRange, Bool.and_eq_true, decide_eq_true_eq,
        Option.some.injEq, Prod.mk.injEq] at *
      omega
    · cases h
  · cases h

theorem parseM_bounds {cs : List Char} {m : Nat} {r : List Char}
    (h : parseM cs = some (m, r)) : m ≤ 59 := by
  unfold parseM at h
  split at h
  · split at h
    · simp only [inRange, Bool.and_eq_true, decide_eq_true_eq,
        Option.some.injEq, Prod.mk.injEq] at *
      omega
    · split at h
      · simp only [inRange, Bool.and_eq_true, decide_eq_true_eq,
          Option.some.injEq, Prod.mk.injEq] at *
        omega
      · cases h
  · split at h
    · simp only [inRange, Bool.and_eq_true, decide_eq_true_eq,
        Option.some.injEq, Prod.mk.injEq] at *
      omega
    · cases h
  · cases h

theorem to24_lt {h12 : Nat} (pm : Bool) (h1 : 1 ≤ h12) (h2 : h12 ≤ 12) :
    to24 h12 pm < 24 := by
  unfold to24
  split_ifs <;> omega

theorem parseTimeStr_bounds {cs : List Char} {h m : Nat}
    (hp : parseTimeStr cs = some (h, m)) : h < 24 ∧ m < 60 := by
  unfold parseTimeStr at hp
  split at hp
  · rcases hI : parseI cs with _ | ⟨h12, r1⟩ <;> rw [hI] at hp <;> try dsimp only at hp
    · cases hp
    · split at hp
      · rename_i r2
        rcases hM : parseM r2 with _ | ⟨m0, r3⟩ <;> rw [hM] at hp <;> try dsimp only at hp
        · cases hp
        · rcases hP : parseP r3 with _ | ⟨pm, r4⟩ <;> rw [hP] at hp <;> try dsimp only at hp
          · cases hp
          · rcases r4 with _ | ⟨c4, r5⟩ <;> try dsimp only at hp
            · simp only [Option.some.injEq, Prod.mk.injEq] at hp
              obtain ⟨rfl, rfl⟩ := hp
              obtain ⟨hb1, hb2⟩ := parseI_bounds hI
              exact ⟨to24_lt pm hb1 hb2, by have := parseM_bounds hM; omega⟩
            · cases hp
      · cases hp
  · rcases hI : parseI cs with _ | ⟨h12, r1⟩ <;> rw [hI] at hp <;> try dsimp only at hp
    · cases hp
    · rcases hP : parseP r1 with _ | ⟨pm, r4⟩ <;> rw [hP] at hp <;> try dsimp only at hp
      · cases hp
      · rcases r4 with _ | ⟨c4, r5⟩ <;> try dsimp only at hp
        · simp only [Option.some.injEq, Prod.mk.injEq] at hp
          obtain ⟨rfl, rfl⟩ := hp
          obtain ⟨hb1, hb2⟩ := parseI_bounds hI
          exact ⟨to24_lt pm hb1 hb2, by omega⟩
        · cases hp

/-- C8: a detected rate-limit notice with a parseable 12-hour time and a
known zone resolves, in that zone, to the next future occurrence of that
wall-clock time: the same day when it is still ahead, one day later
otherwise (concretely, a 1pm Taipei notice observed at 11:00 Taipei is
13:00 the same day, observed at 14:00 it is 13:00 the next day); an
unknown zone or unparseable time yields no reset instant, and a matched
notice always sets the detection flag, storing no reset time when
parsing failed. -/
theorem foreman_C8_rate_limit_reset
    (t z line : List Char) (zoneOk : List Char → Bool) (now h m : Nat)
    (info : RLInfo) :
    (zoneOk z = true →
      parseTimeStr ((pyStrip t).map Char.toUpper) = some (h, m) →
      h * 3600 + m * 60 < secondsPerDay ∧
      ∃ r, parse_reset_datetime t (zoneOk z) now = some r ∧
        now < r ∧ r ≤ now + secondsPerDay ∧
        r % secondsPerDay = (h * 3600 + m * 60) % secondsPerDay ∧
        (now % secondsPerDay < h * 3600 + m * 60 →
          r = now - now % secondsPerDay + (h * 3600 + m * 60)) ∧
        (h * 3600 + m * 60 ≤ now % secondsPerDay →
          r = now - now % secondsPerDay + (h * 3600 + m * 60) + secondsPerDay))
    ∧ (zoneOk z = false → parse_reset_datetime t (zoneOk z) now = none)
    ∧ (parseTimeStr ((pyStrip t).map Char.toUpper) = none →
        parse_reset_datetime t true now = none)
    ∧ (info.detected = false → rateLimitSearch line = some (t, z) →
        parse_reset_datetime t (zoneOk z) now = none →
        detectLine zoneOk now info line = { detected := true, reset := none })
    ∧ detectLine (fun zn => decide (zn = "Asia/Taipei".data))
        (20000 * secondsPerDay + 11 * 3600) { detected := false, reset := none }
        "You've hit your limit · resets 1pm (Asia/Taipei)".data =
        { detected := true, reset := some (20000 * secondsPerDay + 13 * 3600) }
    ∧ detectLine (fun zn => decide (zn = "Asia/Taipei".data))
        (20000 * secondsPerDay + 14 * 3600) { detected := false, reset := none }
        "You've hit your limit · resets 1pm (Asia/Taipei)".data =
        { detected := true, reset := some (20001 * secondsPerDay + 13 * 3600) } := by
  refine ⟨?_, ?_, ?_, ?_, by decide, by decide⟩
  · intro hz hp
    obtain ⟨hb1, hb2⟩ := parseTimeStr_bounds hp
    constructor
    · unfold secondsPerDay; omega
    · unfold parse_reset_datetime
      rw [hz, hp]
      simp only [Bool.not_true, Bool.false_eq_true, if_false]
      refine ⟨_, rfl, ?_⟩
      have hdm := Nat.div_add_mod now secondsPerDay
      by_cases hle :
          now / secondsPerDay * secondsPerDay + h * 3600 + m * 60 ≤ now <;>
        simp only [hle, if_pos, if_neg, not_false_iff] <;>
        unfold secondsPerDay at * <;>
        (refine ⟨by omega, by omega, by omega, ?_, ?_⟩ <;> intro hcmp <;> omega)
  · intro hz
    unfold parse_reset_datetime
    rw [hz]
    simp
  · intro hp
    unfold parse_reset_datetime
    rw [hp]
    simp
  · intro hd hsearch hparse
    unfold detectLine
    rw [hd, hsearch]
    simp [hparse]

theorem foreman_C8_witness :
    (13 : Nat) * 3600 + 0 * 60 < secondsPerDay ∧
    ∃ r, parse_reset_datetime "1pm".data
        ((fun zn => decide (zn = "Asia/Taipei".data)) "Asia/Taipei".data)
        (20000 * secondsPerDay + 11 * 3600) = some r ∧
      20000 * secondsPerDay + 11 * 3600 < r ∧
      r ≤ 20000 * secondsPerDay + 11 * 3600 + secondsPerDay ∧
      r % secondsPerDay = (13 * 3600 + 0 * 60) % secondsPerDay ∧
      ((20000 * secondsPerDay + 11 * 3600) % secondsPerDay < 13 * 3600 + 0 * 60 →
        r = 20000 * secondsPerDay + 11 * 3600 -
          (20000 * secondsPerDay + 11 * 3600) % secondsPerDay + (13 * 3600 + 0 * 60)) ∧
      (13 * 3600 + 0 * 60 ≤ (20000 * secondsPerDay + 11 * 3600) % secondsPerDay →
        r = 20000 * secondsPerDay + 11 * 3600 -
          (20000 * secondsPerDay + 11 * 3600) % secondsPerDay + (13 * 3600 + 0 * 60) +
          secondsPerDay) :=
  (foreman_C8_rate_limit_reset "1pm".data "Asia/Taipei".data []
    (fun zn => decide (zn = "Asia/Taipei".data))
    (20000 * secondsPerDay + 11 * 3600) 13 0 { detected := false, reset := none }).1
    (by decide) (by decide)

end ClaimC8

section ClaimC9

/-- C9: on process start with a persisted active iterative task whose
live agent status reports all sub-items complete, the job is finalized
as success immediately: the working state is archived, the queue entry
removed, the persisted record cleared, and no agent process is
spawned. -/
theorem foreman_C9_startup_success (st : StateDict) (status : List Char) (p : String)
    (hip : dictFind st "in_progress" = some (JVal.jstr p)) (hp : p ≠ "")
    (hjt : stateGetD st "job_type" (JVal.jstr "prd") ≠ JVal.jstr "todo")
    (hc : is_all_complete status = true) :
    startupReconcile st status =
      ({ state := dictSet st "in_progress" JVal.jnull
         hasProc := false
         currentPrd := none
         currentJobType := none
         currentPass := 0
         currentNumPasses := 1 },
       [Effect.archiveRalph p, Effect.removeSymlink p,
        Effect.save (dictSet st "in_progress" JVal.jnull)]) ∧
    (∀ t, Effect.spawnRalph t ∉ (startupReconcile st status).2) ∧
    (∀ t k v, Effect.spawnClaude t k v ∉ (startupReconcile st status).2) := by
  have hmain : startupReconcile st status =
      ({ state := dictSet st "in_progress" JVal.jnull
         hasProc := false
         currentPrd := none
         currentJobType := none
         currentPass := 0
         currentNumPasses := 1 },
       [Effect.archiveRalph p, Effect.removeSymlink p,
        Effect.save (dictSet st "in_progress" JVal.jnull)]) := by
    unfold startupReconcile
    rw [hip]
    simp [jtruthy, hp, hjt, hc, handle_finished_job]
  refine ⟨hmain, ?_, ?_⟩
  · intro t
    rw [hmain]
    simp
  · intro t k v
    rw [hmain]
    simp

theorem foreman_C9_witness :
    startupReconcile
      [("in_progress", JVal.jstr "todo/prd-07-x.md"), ("job_type", JVal.jstr "prd")]
      "Progress: 2/2 complete".data =
      ({ state := dictSet [("in_progress", JVal.jstr "todo/prd-07-x.md"),
            ("job_type", JVal.jstr "prd")] "in_progress" JVal.jnull
         hasProc := false
         currentPrd := none
         currentJobType := none
         currentPass := 0
         currentNumPasses := 1 },
       [Effect.archiveRalph "todo/prd-07-x.md", Effect.removeSymlink "todo/prd-07-x.md",
        Effect.save (dictSet [("in_progress", JVal.jstr "todo/prd-07-x.md"),
          ("job_type", JVal.jstr "prd")] "in_progress" JVal.jnull)]) :=
  (foreman_C9_startup_success
    [("in_progress", JVal.jstr "todo/prd-07-x.md"), ("job_type", JVal.jstr "prd")]
    "Progress: 2/2 complete".data "todo/prd-07-x.md"
    (by decide) (by decide) (by decide) (by decide)).1

end ClaimC9

section ClaimC7

/-- C7: for a direct-prompt job of N passes (N read from the .pN.md
suffix, defaulting to 1), pass 1 is spawned with the implement
instruction, a later pass k is spawned with the verify instruction
exactly when k = N and N exceeds 1, the next pass is spawned on process
exit regardless of whether the completion marker was seen, and the job
finalizes with success exactly when the last pass's own output contained
the completion-marker literal. -/
theorem foreman_C7_pass_sequencing (args : Args) (env : Env) (s : Sup) (c : Int)
    (hproc : s.hasProc = true) (htype : s.currentJobType = some JobType.todo)
    (hexit : env.exitCode = some c) :
    (s.currentPass < s.currentNumPasses →
      tickMain args env s =
        ({ s with currentPass := s.currentPass + 1 },
         [Effect.spawnClaude (taskOf s) (s.currentPass + 1)
            (decide (s.currentPass + 1 = s.currentNumPasses) &&
             decide (1 < s.currentNumPasses))]))
    ∧ (¬ s.currentPass < s.currentNumPasses →
      tickMain args env s =
        ({ state := dictSet s.state "in_progress" JVal.jnull
           hasProc := false
           currentPrd := none
           currentJobType := none
           currentPass := 0
           currentNumPasses := 1 },
         [Effect.archiveTodo (taskOf s) (pipeClaudeComplete env.outLines),
          Effect.removeSymlink (taskOf s),
          Effect.save (dictSet s.state "in_progress" JVal.jnull)]))
    ∧ start_claude_pass_instr false = Instr.implement
    ∧ start_claude_pass_instr true = Instr.verify
    ∧ (∀ (env2 : Env) (s2 : Sup) (e : Entry) (rest : List (Entry × JobType)),
        scan_todo env2.todoDirExists env2.entries = (e, JobType.todo) :: rest →
        (tickScan env2 s2).2 =
          [Effect.scanned,
           Effect.save (dictSet (dictSet s2.state "in_progress" (JVal.jstr e.name))
             "job_type" (JVal.jstr "todo")),
           Effect.spawnClaude e.name 1 false] ∧
        (tickScan env2 s2).1.currentNumPasses = extract_passes e.name.data ∧
        (tickScan env2 s2).1.currentPass = 1)
    ∧ extract_passes "todo-x.p3.md".data = 3
    ∧ extract_passes "todo-x.md".data = 1 := by
  refine ⟨?_, ?_, rfl, rfl, ?_, by decide, by decide⟩
  · intro hlt
    unfold tickMain tickTodoExit
    rw [hexit, htype]
    simp [hproc, hlt]
  · intro hge
    unfold tickMain tickTodoExit
    rw [hexit, htype]
    simp [hproc, hge]
  · intro env2 s2 e rest hscan
    unfold tickScan
    rw [hscan]
    exact ⟨rfl, rfl, rfl⟩

theorem foreman_C7_witness :
    tickMain { maxRetries := 3, maxErrorRetries := 3 }
      { envBase with exitCode := some 0, outLines := ["ok".data] }
      { state := [("in_progress", JVal.jstr "todo/todo-a.p2.md"),
          ("job_type", JVal.jstr "todo")]
        hasProc := true
        currentPrd := some "todo/todo-a.p2.md"
        currentJobType := some JobType.todo
        currentPass := 1
        currentNumPasses := 2 } =
      ({ state := [("in_progress", JVal.jstr "todo/todo-a.p2.md"),
           ("job_type", JVal.jstr "todo")]
         hasProc := true
         currentPrd := some "todo/todo-a.p2.md"
         currentJobType := some JobType.todo
         currentPass := 2
         currentNumPasses := 2 },
       [Effect.spawnClaude "todo/todo-a.p2.md" 2 (decide (1 + 1 = 2) && decide (1 < 2))]) := by
  have h := (foreman_C7_pass_sequencing { maxRetries := 3, maxErrorRetries := 3 }
    { envBase with exitCode := some 0, outLines := ["ok".data] }
    { state := [("in_progress", JVal.jstr "todo/todo-a.p2.md"),
        ("job_type", JVal.jstr "todo")]
      hasProc := true
      currentPrd := some "todo/todo-a.p2.md"
      currentJobType := some JobType.todo
      currentPass := 1
      currentNumPasses := 2 } 0 rfl rfl rfl).1 (by decide)
  exact h

end ClaimC7

section ClaimC4

/-- C4 counterexample: a two-pass direct-prompt job whose final pass
exits without the completion marker is finalized as failure, yet its
queue symlink removal is still performed (the effect list contains the
removal), so a failed direct-prompt task does not stay queued. -/
theorem foreman_C4_counterexample :
    (tick { maxRetries := 3, maxErrorRetries := 3 }
        { envBase with exitCode := some 0, outLines := ["no marker here".data] }
        { state := [("in_progress", JVal.jstr "todo/todo-a.md"),
            ("job_type", JVal.jstr "todo")]
          hasProc := true
          currentPrd := some "todo/todo-a.md"
          currentJobType := some JobType.todo
          currentPass := 2
          currentNumPasses := 2 }).2 =
      [Effect.archiveTodo "todo/todo-a.md" false,
       Effect.removeSymlink "todo/todo-a.md",
       Effect.save [("in_progress", JVal.jnull), ("job_type", JVal.jstr "todo")],
       Effect.scanned] ∧
    Effect.removeSymlink "todo/todo-a.md" ∈
      (tick { maxRetries := 3, maxErrorRetries := 3 }
        { envBase with exitCode := some 0, outLines := ["no marker here".data] }
        { state := [("in_progress", JVal.jstr "todo/todo-a.md"),
            ("job_type", JVal.jstr "todo")]
          hasProc := true
          currentPrd := some "todo/todo-a.md"
          currentJobType := some JobType.todo
          currentPass := 2
          currentNumPasses := 2 }).2 := by
  constructor
  · decide
  · decide

/-- C4 amended: only iterative-job failure finalization leaves the queue
entry untouched (handle_finished_job on failure emits no symlink removal
and no archive move, only the state save); a direct-prompt job's
finalization removes the queue symlink whether it succeeded or
failed. -/
theorem foreman_C4_failure_artifacts (task : String) (st : StateDict)
    (args : Args) (env : Env) (s : Sup) (c : Int)
    (hproc : s.hasProc = true) (htype : s.currentJobType = some JobType.todo)
    (hexit : env.exitCode = some c) (hlast : ¬ s.currentPass < s.currentNumPasses) :
    (handle_finished_job task st false).2 =
      [Effect.save (dictSet st "in_progress" JVal.jnull)]
    ∧ (∀ t, Effect.removeSymlink t ∉ (handle_finished_job task st false).2)
    ∧ (∀ t, Effect.archiveRalph t ∉ (handle_finished_job task st false).2)
    ∧ Effect.removeSymlink (taskOf s) ∈ (tickMain args env s).2 := by
  refine ⟨by simp [handle_finished_job], ?_, ?_, ?_⟩
  · intro t
    simp [handle_finished_job]
  · intro t
    simp [handle_finished_job]
  · unfold tickMain tickTodoExit
    rw [hexit, htype]
    simp [hproc, hlast]

theorem foreman_C4_witness :
    (handle_finished_job "todo/prd-03-x.md" [("in_progress", JVal.jstr "todo/prd-03-x.md")]
        false).2 =
      [Effect.save (dictSet [("in_progress", JVal.jstr "todo/prd-03-x.md")]
        "in_progress" JVal.jnull)] :=
  (foreman_C4_failure_artifacts "todo/prd-03-x.md"
    [("in_progress", JVal.jstr "todo/prd-03-x.md")]
    { maxRetries := 3, maxErrorRetries := 3 }
    { envBase with exitCode := some 0 }
    { state := [("in_progress", JVal.jstr "todo/todo-a.md"),
        ("job_type", JVal.jstr "todo")]
      hasProc := true
      currentPrd := some "todo/todo-a.md"
      currentJobType := some JobType.todo
      currentPass := 1
      currentNumPasses := 1 } 0 rfl rfl rfl (by decide)).1

end ClaimC4

section ClaimC5

/-- The keys the program ever stores in the persisted state file. -/
def stateKeys : List String := ["in_progress", "job_type", "retry_count", "error_retry_count"]

def stateKeysOK (d : StateDict) : Prop := ∀ kv ∈ d, kv.1 ∈ stateKeys

theorem dictSet_keysOK {d : StateDict} {k : String} {v : JVal}
    (hd : stateKeysOK d) (hk : k ∈ stateKeys) : stateKeysOK (dictSet d k v) := by
  intro kv hkv
  unfold dictSet at hkv
  split at hkv
  · rcases List.mem_map.mp hkv with ⟨kv0, hkv0, heq⟩
    by_cases hkk : kv0.1 = k
    · rw [if_pos hkk] at heq
      rw [← heq]
      exact hk
    · rw [if_neg hkk] at heq
      rw [← heq]
      exact hd kv0 hkv0
  · rcases List.mem_append.mp hkv with h1 | h1
    · exact hd kv h1
    · simp only [List.mem_singleton] at h1
      rw [h1]
      exact hk

theorem handle_finished_job_saves {task : String} {st : StateDict} {b : Bool}
    {d : StateDict} (hd : Effect.save d ∈ (handle_finished_job task st b).2) :
    d = dictSet st "in_progress" JVal.jnull := by
  unfold handle_finished_job at hd
  split at hd <;> simp_all

theorem tickTodoExit_saves {env : Env} {s : Sup} {d : StateDict}
    (hd : Effect.save d ∈ (tickTodoExit env s).2) :
    d = dictSet s.state "in_progress" JVal.jnull := by
  unfold tickTodoExit at hd
  split at hd <;> simp_all

theorem handle_finished_job_state {task : String} {st : StateDict} {b : Bool} :
    (handle_finished_job task st b).1 = dictSet st "in_progress" JVal.jnull := by
  unfold handle_finished_job
  split <;> rfl

theorem tickPrdExit_saves {args : Args} {env : Env} {s : Sup} {c : Int}
    {d : StateDict} (hd : Effect.save d ∈ (tickPrdExit args env s c).2)
    (hs : stateKeysOK s.state) : stateKeysOK d := by
  simp only [tickPrdExit, handle_finished_job] at hd
  repeat' (split at hd)
  all_goals simp at hd
  all_goals subst hd
  all_goals exact dictSet_keysOK hs (by simp [stateKeys])

theorem tickScan_saves {env : Env} {s : Sup} {d : StateDict}
    (hd : Effect.save d ∈ (tickScan env s).2) (hs : stateKeysOK s.state) :
    stateKeysOK d := by
  simp only [tickScan] at hd
  repeat' (split at hd)
  all_goals simp at hd
  all_goals subst hd
  all_goals
    repeat
      first
        | exact hs
        | refine dictSet_keysOK ?_ (by simp [stateKeys])

theorem tickMain_saves {args : Args} {env : Env} {s : Sup} {d : StateDict}
    (hd : Effect.save d ∈ (tickMain args env s).2) (hs : stateKeysOK s.state) :
    stateKeysOK d := by
  simp only [tickMain] at hd
  repeat' (split at hd)
  all_goals try simp at hd
  all_goals
    first
      | (have hEq := tickTodoExit_saves hd
         subst hEq
         exact dictSet_keysOK hs (by simp [stateKeys]))
      | exact tickPrdExit_saves hd hs
      | (have hEq := handle_finished_job_saves hd
         subst hEq
         exact dictSet_keysOK hs (by simp [stateKeys]))

theorem tickTodoExit_state_keys {env : Env} {s : Sup} (hs : stateKeysOK s.state) :
    stateKeysOK (tickTodoExit env s).1.state := by
  unfold tickTodoExit
  split
  · exact hs
  · exact dictSet_keysOK hs (by simp [stateKeys])

theorem tickPrdExit_state_keys {args : Args} {env : Env} {s : Sup} {c : Int}
    (hs : stateKeysOK s.state) : stateKeysOK (tickPrdExit args env s c).1.state := by
  simp only [tickPrdExit, handle_finished_job]
  repeat' split
  all_goals try dsimp only
  all_goals
    first
      | exact hs
      | exact dictSet_keysOK hs (by simp [stateKeys])

theorem tickMain_state_keys {args : Args} {env : Env} {s : Sup}
    (hs : stateKeysOK s.state) : stateKeysOK (tickMain args env s).1.state := by
  simp only [tickMain]
  repeat' split
  all_goals try dsimp only
  all_goals
    first
      | exact hs
      | exact tickTodoExit_state_keys hs
      | exact tickPrdExit_state_keys hs
      | (rw [handle_finished_job_state]
         exact dictSet_keysOK hs (by simp [stateKeys]))

/-- C5 counterexample: a two-pass direct-prompt job advancing from pass
1 to pass 2 writes nothing to the persisted state — the tick's only
effect is the next spawn, with no save at all (so in particular no
pass_index field is ever persisted on a pass advance). -/
theorem foreman_C5_counterexample :
    (tick { maxRetries := 3, maxErrorRetries := 3 }
        { envBase with exitCode := some 0, outLines := [] }
        { state := [("in_progress", JVal.jstr "todo/todo-a.p2.md"),
            ("job_type", JVal.jstr "todo")]
          hasProc := true
          currentPrd := some "todo/todo-a.p2.md"
          currentJobType := some JobType.todo
          currentPass := 1
          currentNumPasses := 2 }).2 =
      [Effect.spawnClaude "todo/todo-a.p2.md" 2 true] ∧
    ∀ d, Effect.save d ∉
      (tick { maxRetries := 3, maxErrorRetries := 3 }
        { envBase with exitCode := some 0, outLines := [] }
        { state := [("in_progress", JVal.jstr "todo/todo-a.p2.md"),
            ("job_type", JVal.jstr "todo")]
          hasProc := true
          currentPrd := some "todo/todo-a.p2.md"
          currentJobType := some JobType.todo
          currentPass := 1
          currentNumPasses := 2 }).2 := by
  have heq : (tick { maxRetries := 3, maxErrorRetries := 3 }
        { envBase with exitCode := some 0, outLines := [] }
        { state := [("in_progress", JVal.jstr "todo/todo-a.p2.md"),
            ("job_type", JVal.jstr "todo")]
          hasProc := true
          currentPrd := some "todo/todo-a.p2.md"
          currentJobType := some JobType.todo
          currentPass := 1
          currentNumPasses := 2 }).2 =
      [Effect.spawnClaude "todo/todo-a.p2.md" 2 true] := by decide
  refine ⟨heq, ?_⟩
  intro d
  rw [heq]
  simp

/-- C5 amended: the persisted record holds at most the fields
in_progress (the active task), job_type, retry_count and
error_retry_count — never a pass index — and a direct-prompt pass
advance writes no state at all; every dict the loop saves keeps its keys
within that set. -/
theorem foreman_C5_persisted_record (args : Args) (env : Env) (s : Sup) (c : Int) :
    (s.hasProc = true → s.currentJobType = some JobType.todo →
      env.exitCode = some c → s.currentPass < s.currentNumPasses →
      ∀ d, Effect.save d ∉ (tickMain args env s).2)
    ∧ (stateKeysOK s.state →
        ∀ d, Effect.save d ∈ (tick args env s).2 → stateKeysOK d)
    ∧ (∀ d, stateKeysOK d → ∀ v, ("pass_index", v) ∉ d)
    ∧ stateKeysOK initState := by
  refine ⟨?_, ?_, ?_, ?_⟩
  · intro hproc htype hexit hlt d
    unfold tickMain tickTodoExit
    rw [hexit, htype]
    simp [hproc, hlt]
  · intro hs d hd
    simp only [tick] at hd
    split at hd
    · rcases List.mem_append.mp hd with h1 | h1
      · exact tickMain_saves h1 hs
      · exact tickScan_saves h1 (tickMain_state_keys hs)
    · exact tickMain_saves hd hs
  · intro d hdOK v hmem
    have := hdOK ("pass_index", v) hmem
    simp [stateKeys] at this
  · intro kv hkv
    simp only [initState, List.mem_singleton] at hkv
    rw [hkv]
    simp [stateKeys]

theorem foreman_C5_witness :
    ∀ d, Effect.save d ∉
      (tickMain { maxRetries := 3, maxErrorRetries := 3 }
        { envBase with exitCode := some 0, outLines := [] }
        { state := [("in_progress", JVal.jstr "todo/todo-b.p3.md"),
            ("job_type", JVal.jstr "todo")]
          hasProc := true
          currentPrd := some "todo/todo-b.p3.md"
          currentJobType := some JobType.todo
          currentPass := 2
          currentNumPasses := 3 }).2 :=
  (foreman_C5_persisted_record { maxRetries := 3, maxErrorRetries := 3 }
    { envBase with exitCode := some 0, outLines := [] }
    { state := [("in_progress", JVal.jstr "todo/todo-b.p3.md"),
        ("job_type", JVal.jstr "todo")]
      hasProc := true
      currentPrd := some "todo/todo-b.p3.md"
      currentJobType := some JobType.todo
      currentPass := 2
      currentNumPasses := 3 } 0).1 rfl rfl rfl (by decide)

end ClaimC5

section ClaimC3

/-- C3 counterexample: an iterative job whose agent exits 0 with the
status reporting all sub-items complete is NOT finalized when a
rate-limit notice was seen during the run: the loop sleeps and respawns
the agent instead of archiving. -/
theorem foreman_C3_counterexample :
    (tickMain { maxRetries := 3, maxErrorRetries := 3 }
        { envBase with
            exitCode := some 0
            status := "Progress: 2/2 complete".data
            ralphLines := ["You've hit your limit · resets 1pm (Asia/Taipei)".data]
            zoneOk := fun zn => decide (zn = "Asia/Taipei".data)
            nowLocal := 20000 * secondsPerDay + 11 * 3600 }
        { state := [("in_progress", JVal.jstr "todo/prd-07-x.md"),
            ("job_type", JVal.jstr "prd"), ("retry_count", JVal.jint 0),
            ("error_retry_count", JVal.jint 0)]
          hasProc := true
          currentPrd := some "todo/prd-07-x.md"
          currentJobType := some JobType.prd
          currentPass := 0
          currentNumPasses := 1 }) =
      ({ state := [("in_progress", JVal.jstr "todo/prd-07-x.md"),
           ("job_type", JVal.jstr "prd"), ("retry_count", JVal.jint 0),
           ("error_retry_count", JVal.jint 0)]
         hasProc := true
         currentPrd := some "todo/prd-07-x.md"
         currentJobType := some JobType.prd
         currentPass := 0
         currentNumPasses := 1 },
       [Effect.sleepUntilReset (some (20000 * secondsPerDay + 13 * 3600)),
        Effect.spawnRalph "todo/prd-07-x.md"]) ∧
    is_all_complete "Progress: 2/2 complete".data = true ∧
    (∀ t, Effect.archiveRalph t ∉
      (tickMain { maxRetries := 3, maxErrorRetries := 3 }
        { envBase with
            exitCode := some 0
            status := "Progress: 2/2 complete".data
            ralphLines := ["You've hit your limit · resets 1pm (Asia/Taipei)".data]
            zoneOk := fun zn => decide (zn = "Asia/Taipei".data)
            nowLocal := 20000 * secondsPerDay + 11 * 3600 }
        { state := [("in_progress", JVal.jstr "todo/prd-07-x.md"),
            ("job_type", JVal.jstr "prd"), ("retry_count", JVal.jint 0),
            ("error_retry_count", JVal.jint 0)]
          hasProc := true
          currentPrd := some "todo/prd-07-x.md"
          currentJobType := some JobType.prd
          currentPass := 0
          currentNumPasses := 1 }).2) := by
  have heq : (tickMain { maxRetries := 3, maxErrorRetries := 3 }
        { envBase with
            exitCode := some 0
            status := "Progress: 2/2 complete".data
            ralphLines := ["You've hit your limit · resets 1pm (Asia/Taipei)".data]
            zoneOk := fun zn => decide (zn = "Asia/Taipei".data)
            nowLocal := 20000 * secondsPerDay + 11 * 3600 }
        { state := [("in_progress", JVal.jstr "todo/prd-07-x.md"),
            ("job_type", JVal.jstr "prd"), ("retry_count", JVal.jint 0),
            ("error_retry_count", JVal.jint 0)]
          hasProc := true
          currentPrd := some "todo/prd-07-x.md"
          currentJobType := some JobType.prd
          currentPass := 0
          currentNumPasses := 1 }) =
      ({ state := [("in_progress", JVal.jstr "todo/prd-07-x.md"),
           ("job_type", JVal.jstr "prd"), ("retry_count", JVal.jint 0),
           ("error_retry_count", JVal.jint 0)]
         hasProc := true
         currentPrd := some "todo/prd-07-x.md"
         currentJobType := some JobType.prd
         currentPass := 0
         currentNumPasses := 1 },
       [Effect.sleepUntilReset (some (20000 * secondsPerDay + 13 * 3600)),
        Effect.spawnRalph "todo/prd-07-x.md"]) := by decide
  refine ⟨heq, by decide, ?_⟩
  intro t
  rw [heq]
  simp

/-- C3 amended: on exit code 0 with all sub-items complete the job
finalizes as success — archived, unqueued, persisted state cleared —
provided no rate-limit notice was detected during the run; when one was
detected, the loop instead sleeps and restarts the agent on that exit,
whatever the status said. -/
theorem foreman_C3_success_finalize (args : Args) (env : Env) (s : Sup)
    (hproc : s.hasProc = true) (htype : s.currentJobType = some JobType.prd)
    (hexit : env.exitCode = some 0) (hc : is_all_complete env.status = true) :
    ((pipeOutput env.zoneOk env.nowLocal env.ralphLines).detected = false →
      tickMain args env s =
        ({ s with state := dictSet s.state "in_progress" JVal.jnull
                  hasProc := false
                  currentPrd := none },
         [Effect.archiveRalph (taskOf s), Effect.removeSymlink (taskOf s),
          Effect.save (dictSet s.state "in_progress" JVal.jnull)]))
    ∧ ((pipeOutput env.zoneOk env.nowLocal env.ralphLines).detected = true →
      tickMain args env s =
        (s, [Effect.sleepUntilReset (pipeOutput env.zoneOk env.nowLocal env.ralphLines).reset,
             Effect.spawnRalph (taskOf s)])) := by
  constructor
  · intro hrl
    unfold tickMain tickPrdExit handle_finished_job
    rw [hexit, htype]
    simp [hproc, hrl, hc]
  · intro hrl
    unfold tickMain tickPrdExit
    rw [hexit, htype]
    simp [hproc, hrl]

theorem foreman_C3_witness :
    tickMain { maxRetries := 3, maxErrorRetries := 3 }
      { envBase with exitCode := some 0, status := "Progress: 2/2 complete".data }
      { state := [("in_progress", JVal.jstr "todo/prd-07-x.md"),
          ("job_type", JVal.jstr "prd"), ("retry_count", JVal.jint 0),
          ("error_retry_count", JVal.jint 0)]
        hasProc := true
        currentPrd := some "todo/prd-07-x.md"
        currentJobType := some JobType.prd
        currentPass := 0
        currentNumPasses := 1 } =
      ({ { state := [("in_progress", JVal.jstr "todo/prd-07-x.md"),
             ("job_type", JVal.jstr "prd"), ("retry_count", JVal.jint 0),
             ("error_retry_count", JVal.jint 0)]
           hasProc := true
           currentPrd := some "todo/prd-07-x.md"
           currentJobType := some JobType.prd
           currentPass := 0
           currentNumPasses := 1 : Sup } with
         state := dictSet [("in_progress", JVal.jstr "todo/prd-07-x.md"),
             ("job_type", JVal.jstr "prd"), ("retry_count", JVal.jint 0),
             ("error_retry_count", JVal.jint 0)] "in_progress" JVal.jnull
         hasProc := false
         currentPrd := none },
       [Effect.archiveRalph "todo/prd-07-x.md", Effect.removeSymlink "todo/prd-07-x.md",
        Effect.save (dictSet [("in_progress", JVal.jstr "todo/prd-07-x.md"),
            ("job_type", JVal.jstr "prd"), ("retry_count", JVal.jint 0),
            ("error_retry_count", JVal.jint 0)] "in_progress" JVal.jnull)]) :=
  (foreman_C3_success_finalize { maxRetries := 3, maxErrorRetries := 3 }
    { envBase with exitCode := some 0, status := "Progress: 2/2 complete".data }
    { state := [("in_progress", JVal.jstr "todo/prd-07-x.md"),
        ("job_type", JVal.jstr "prd"), ("retry_count", JVal.jint 0),
        ("error_retry_count", JVal.jint 0)]
      hasProc := true
      currentPrd := some "todo/prd-07-x.md"
      currentJobType := some JobType.prd
      currentPass := 0
      currentNumPasses := 1 } rfl rfl rfl (by decide)).1 rfl

end ClaimC3

section ClaimC6

/-- A tick observation in which the spawned agent has exited with the
given code and nothing else happened (empty queue, no output seen). -/
def errEnv (c : Int) : Env := { envBase with exitCode := some c }

/-- A tick observation offering one queued PRD entry. -/
def pickEnv : Env :=
  { envBase with
      todoDirExists := true
      entries := [⟨"prd-3-a.md", true, 0⟩] }

def isSpawnRalph : Effect → Bool
  | Effect.spawnRalph _ => true
  | _ => false

/-- The supervisor state while the job picked from pickEnv runs, with
the given persisted error-retry count. -/
def c6run (n : Int) : Sup :=
  { state := [("in_progress", JVal.jstr "prd-3-a.md"), ("job_type", JVal.jstr "prd"),
      ("retry_count", JVal.jint 0), ("error_retry_count", JVal.jint n)]
    hasProc := true
    currentPrd := some "prd-3-a.md"
    currentJobType := some JobType.prd
    currentPass := 0
    currentNumPasses := 1 }

/-- The supervisor state after the job from pickEnv is finalized as
failure with the given persisted error-retry count. -/
def c6done (n : Int) : Sup :=
  { state := [("in_progress", JVal.jnull), ("job_type", JVal.jstr "prd"),
      ("retry_count", JVal.jint 0), ("error_retry_count", JVal.jint n)]
    hasProc := false
    currentPrd := none
    currentJobType := some JobType.prd
    currentPass := 0
    currentNumPasses := 1 }

/-- One loop iteration for an active iterative job whose agent exited
nonzero with no rate limit seen: under the error-retry ceiling the
counter is persisted and the agent respawned; over it the job is
finalized as failure and the loop falls through to the queue scan. -/
theorem tick_err_step (args : Args) (env : Env) (s : Sup) (c : Int)
    (hproc : s.hasProc = true) (htype : s.currentJobType = some JobType.prd)
    (hexit : env.exitCode = some c) (hcne : c ≠ 0)
    (hrl : (pipeOutput env.zoneOk env.nowLocal env.ralphLines).detected = false) :
    tick args env s =
      if 0 < args.maxErrorRetries ∧
          dictGetInt s.state "error_retry_count" 0 + 1 ≤ args.maxErrorRetries then
        ({ s with
            state := dictSet s.state "error_retry_count"
              (JVal.jint (dictGetInt s.state "error_retry_count" 0 + 1)) },
         [Effect.save (dictSet s.state "error_retry_count"
            (JVal.jint (dictGetInt s.state "error_retry_count" 0 + 1))),
          Effect.spawnRalph (taskOf s)])
      else
        ((tickScan env { s with
            state := dictSet s.state "in_progress" JVal.jnull
            hasProc := false
            currentPrd := none }).1,
         Effect.save (dictSet s.state "in_progress" JVal.jnull) ::
           (tickScan env { s with
              state := dictSet s.state "in_progress" JVal.jnull
              hasProc := false
              currentPrd := none }).2) := by
  unfold tick tickMain tickPrdExit handle_finished_job
  rw [hexit, htype]
  by_cases hceil : 0 < args.maxErrorRetries ∧
      dictGetInt s.state "error_retry_count" 0 + 1 ≤ args.maxErrorRetries
  · rw [if_pos hceil]
    simp [hproc, hrl, hcne, hceil]
  · rw [if_neg hceil]
    simp [hproc, hrl, hcne, hceil]

theorem tickScan_errEnv (c : Int) (s : Sup) :
    tickScan (errEnv c) s = (s, [Effect.scanned]) := rfl

/-- C6: with the error-retry ceiling at 3, an iterative job whose agent
exits nonzero four times in a row is spawned four times in all (the
initial start plus exactly three restarts) and then finalized as
failure, never archived; with the ceiling at 0 the first nonzero exit
finalizes as failure after the single initial spawn. -/
theorem foreman_C6_error_retry (c1 c2 c3 c4 : Int)
    (h1 : c1 ≠ 0) (h2 : c2 ≠ 0) (h3 : c3 ≠ 0) (h4 : c4 ≠ 0) :
    (((runTicks { maxRetries := 3, maxErrorRetries := 3 }
        [pickEnv, errEnv c1, errEnv c2, errEnv c3, errEnv c4] supIdle).2.filter
          isSpawnRalph).length = 4)
    ∧ (∀ t, Effect.archiveRalph t ∉
        (runTicks { maxRetries := 3, maxErrorRetries := 3 }
          [pickEnv, errEnv c1, errEnv c2, errEnv c3, errEnv c4] supIdle).2)
    ∧ (runTicks { maxRetries := 3, maxErrorRetries := 3 }
        [pickEnv, errEnv c1, errEnv c2, errEnv c3, errEnv c4] supIdle).1 = c6done 3
    ∧ (((runTicks { maxRetries := 3, maxErrorRetries := 0 }
        [pickEnv, errEnv c1] supIdle).2.filter isSpawnRalph).length = 1)
    ∧ (∀ t, Effect.archiveRalph t ∉
        (runTicks { maxRetries := 3, maxErrorRetries := 0 }
          [pickEnv, errEnv c1] supIdle).2)
    ∧ (runTicks { maxRetries := 3, maxErrorRetries := 0 }
        [pickEnv, errEnv c1] supIdle).1.hasProc = false
    ∧ (runTicks { maxRetries := 3, maxErrorRetries := 0 }
        [pickEnv, errEnv c1] supIdle).1.currentPrd = none := by
  have e1 : tick { maxRetries := 3, maxErrorRetries := 3 } pickEnv supIdle =
      (c6run 0,
       [Effect.scanned, Effect.backupStale, Effect.save (c6run 0).state,
        Effect.spawnRalph "prd-3-a.md"]) := by decide
  have e2 : tick { maxRetries := 3, maxErrorRetries := 3 } (errEnv c1) (c6run 0) =
      (c6run 1, [Effect.save (c6run 1).state, Effect.spawnRalph "prd-3-a.md"]) := by
    rw [tick_err_step { maxRetries := 3, maxErrorRetries := 3 } (errEnv c1)
      (c6run 0) c1 rfl rfl rfl h1 rfl]
    rw [if_pos (by decide)]
    decide
  have e3 : tick { maxRetries := 3, maxErrorRetries := 3 } (errEnv c2) (c6run 1) =
      (c6run 2, [Effect.save (c6run 2).state, Effect.spawnRalph "prd-3-a.md"]) := by
    rw [tick_err_step { maxRetries := 3, maxErrorRetries := 3 } (errEnv c2)
      (c6run 1) c2 rfl rfl rfl h2 rfl]
    rw [if_pos (by decide)]
    decide
  have e4 : tick { maxRetries := 3, maxErrorRetries := 3 } (errEnv c3) (c6run 2) =
      (c6run 3, [Effect.save (c6run 3).state, Effect.spawnRalph "prd-3-a.md"]) := by
    rw [tick_err_step { maxRetries := 3, maxErrorRetries := 3 } (errEnv c3)
      (c6run 2) c3 rfl rfl rfl h3 rfl]
    rw [if_pos (by decide)]
    decide
  have e5 : tick { maxRetries := 3, maxErrorRetries := 3 } (errEnv c4) (c6run 3) =
      (c6done 3, [Effect.save (c6done 3).state, Effect.scanned]) := by
    rw [tick_err_step { maxRetries := 3, maxErrorRetries := 3 } (errEnv c4)
      (c6run 3) c4 rfl rfl rfl h4 rfl]
    rw [if_neg (by decide)]
    rw [tickScan_errEnv]
    decide
  have e0 : tick { maxRetries := 3, maxErrorRetries := 0 } (errEnv c1) (c6run 0) =
      (c6done 0, [Effect.save (c6done 0).state, Effect.scanned]) := by
    rw [tick_err_step { maxRetries := 3, maxErrorRetries := 0 } (errEnv c1)
      (c6run 0) c1 rfl rfl rfl h1 rfl]
    rw [if_neg (by decide)]
    rw [tickScan_errEnv]
    decide
  have e1b : tick { maxRetries := 3, maxErrorRetries := 0 } pickEnv supIdle =
      (c6run 0,
       [Effect.scanned, Effect.backupStale, Effect.save (c6run 0).state,
        Effect.spawnRalph "prd-3-a.md"]) := by decide
  have hrun : runTicks { maxRetries := 3, maxErrorRetries := 3 }
      [pickEnv, errEnv c1, errEnv c2, errEnv c3, errEnv c4] supIdle =
      (c6done 3,
       [Effect.scanned, Effect.backupStale, Effect.save (c6run 0).state,
        Effect.spawnRalph "prd-3-a.md",
        Effect.save (c6run 1).state, Effect.spawnRalph "prd-3-a.md",
        Effect.save (c6run 2).state, Effect.spawnRalph "prd-3-a.md",
        Effect.save (c6run 3).state, Effect.spawnRalph "prd-3-a.md",
        Effect.save (c6done 3).state, Effect.scanned]) := by
    simp only [runTicks, e1, e2, e3, e4, e5]
    decide
  have hrun0 : runTicks { maxRetries := 3, maxErrorRetries := 0 }
      [pickEnv, errEnv c1] supIdle =
      (c6done 0,
       [Effect.scanned, Effect.backupStale, Effect.save (c6run 0).state,
        Effect.spawnRalph "prd-3-a.md",
        Effect.save (c6done 0).state, Effect.scanned]) := by
    simp only [runTicks, e1b, e0]
    decide
  refine ⟨?_, ?_, ?_, ?_, ?_, ?_, ?_⟩
  · rw [hrun]
    decide
  · intro t
    rw [hrun]
    simp [c6run, c6done]
  · rw [hrun]
  · rw [hrun0]
    decide
  · intro t
    rw [hrun0]
    simp [c6run, c6done]
  · rw [hrun0]
    rfl
  · rw [hrun0]
    rfl

theorem foreman_C6_witness :
    ((runTicks { maxRetries := 3, maxErrorRetries := 3 }
        [pickEnv, errEnv 1, errEnv 1, errEnv 1, errEnv 1] supIdle).2.filter
          isSpawnRalph).length = 4 :=
  (foreman_C6_error_retry 1 1 1 1 (by decide) (by decide) (by decide) (by decide)).1

end ClaimC6

section ClaimC1

/-- The tasks handed to a freshly spawned agent process in a list of
effects (both agent kinds). -/
def spawnedTasks : List Effect → List String
  | [] => []
  | Effect.spawnRalph t :: es => t :: spawnedTasks es
  | Effect.spawnClaude t _ _ :: es => t :: spawnedTasks es
  | _ :: es => spawnedTasks es

theorem spawnedTasks_append (a b : List Effect) :
    spawnedTasks (a ++ b) = spawnedTasks a ++ spawnedTasks b := by
  induction a with
  | nil => rfl
  | cons x xs ih => cases x <;> simp [spawnedTasks, ih]

theorem tickMain_no_scanned (args : Args) (env : Env) (s : Sup) :
    Effect.scanned ∉ (tickMain args env s).2 := by
  simp only [tickMain, tickTodoExit, tickPrdExit, handle_finished_job]
  repeat' split
  all_goals simp

theorem tickMain_spawn_le1 (args : Args) (env : Env) (s : Sup) :
    (spawnedTasks (tickMain args env s).2).length ≤ 1 := by
  simp only [tickMain, tickTodoExit, tickPrdExit, handle_finished_job]
  repeat' split
  all_goals simp [spawnedTasks]

theorem tickMain_spawn_hasProc (args : Args) (env : Env) (s : Sup) :
    (tickMain args env s).1.hasProc = false →
    spawnedTasks (tickMain args env s).2 = [] := by
  simp only [tickMain, tickTodoExit, tickPrdExit, handle_finished_job]
  repeat' split
  all_goals intro h
  all_goals simp_all [spawnedTasks]

theorem tickScan_nil (env : Env) (s : Sup)
    (h : scan_todo env.todoDirExists env.entries = []) :
    tickScan env s = (s, [Effect.scanned]) := by
  unfold tickScan
  rw [h]

theorem tickScan_cons_prd (env : Env) (s : Sup) (e : Entry)
    (rest : List (Entry × JobType))
    (h : scan_todo env.todoDirExists env.entries = (e, JobType.prd) :: rest) :
    tickScan env s =
      if env.ralphActive = true then (s, [Effect.scanned])
      else
        ({ s with
            state := dictSet (dictSet (dictSet (dictSet s.state
              "in_progress" (JVal.jstr e.name))
              "job_type" (JVal.jstr "prd"))
              "retry_count" (JVal.jint 0))
              "error_retry_count" (JVal.jint 0)
            hasProc := true
            currentPrd := some e.name
            currentJobType := some JobType.prd },
         [Effect.scanned, Effect.backupStale,
          Effect.save (dictSet (dictSet (dictSet (dictSet s.state
            "in_progress" (JVal.jstr e.name))
            "job_type" (JVal.jstr "prd"))
            "retry_count" (JVal.jint 0))
            "error_retry_count" (JVal.jint 0)),
          Effect.spawnRalph e.name]) := by
  unfold tickScan
  rw [h]

theorem tickScan_cons_todo (env : Env) (s : Sup) (e : Entry)
    (rest : List (Entry × JobType))
    (h : scan_todo env.todoDirExists env.entries = (e, JobType.todo) :: rest) :
    tickScan env s =
      ({ s with
          state := dictSet (dictSet s.state
            "in_progress" (JVal.jstr e.name))
            "job_type" (JVal.jstr "todo")
          hasProc := true
          currentPrd := some e.name
          currentJobType := some JobType.todo
          currentPass := 1
          currentNumPasses := extract_passes e.name.data },
       [Effect.scanned,
        Effect.save (dictSet (dictSet s.state
          "in_progress" (JVal.jstr e.name))
          "job_type" (JVal.jstr "todo")),
        Effect.spawnClaude e.name 1 false]) := by
  unfold tickScan
  rw [h]

theorem tickScan_starts (env : Env) (s : Sup) :
    (spawnedTasks (tickScan env s).2).length ≤ 1 ∧
    ∀ t ∈ spawnedTasks (tickScan env s).2,
      ∃ e ty rest, scan_todo env.todoDirExists env.entries = (e, ty) :: rest ∧
        t = e.name := by
  rcases hscan : scan_todo env.todoDirExists env.entries with _ | ⟨⟨e, ty⟩, rest⟩
  · rw [tickScan_nil env s hscan]
    simp [spawnedTasks]
  · cases ty
    · rw [tickScan_cons_prd env s e rest hscan]
      by_cases hra : env.ralphActive = true
      · rw [if_pos hra]
        simp [spawnedTasks]
      · rw [if_neg hra]
        refine ⟨by simp [spawnedTasks], ?_⟩
        intro t hmem
        simp [spawnedTasks] at hmem
        exact ⟨e, JobType.prd, rest, rfl, hmem⟩
    · rw [tickScan_cons_todo env s e rest hscan]
      refine ⟨by simp [spawnedTasks], ?_⟩
      intro t hmem
      simp [spawnedTasks] at hmem
      exact ⟨e, JobType.todo, rest, rfl, hmem⟩

/-- C1: at most one task is ever active — the active slot is a single
optional field — the queue scanner is consulted only when, at that
moment in the tick, no process is held and no job is current (sections
A-C never emit a scan), and a tick starts at most one new task, which is
the head of the scan ordering. -/
theorem foreman_C1_single_job (args : Args) (env : Env) (s : Sup) :
    (Effect.scanned ∈ (tick args env s).2 →
      (tickMain args env s).1.hasProc = false ∧
      (tickMain args env s).1.currentPrd = none)
    ∧ (spawnedTasks (tick args env s).2).length ≤ 1
    ∧ (∀ s2, ∀ t ∈ spawnedTasks (tickScan env s2).2,
        ∃ e ty rest, scan_todo env.todoDirExists env.entries = (e, ty) :: rest ∧
          t = e.name)
    ∧ Effect.scanned ∉ (tickMain args env s).2 := by
  refine ⟨?_, ?_, ?_, tickMain_no_scanned args env s⟩
  · intro hmem
    by_cases hidle : (tickMain args env s).1.hasProc = false ∧
        (tickMain args env s).1.currentPrd = none
    · exact hidle
    · exfalso
      apply tickMain_no_scanned args env s
      have htick : tick args env s = tickMain args env s := by
        simp only [tick]
        rw [if_neg hidle]
      rw [htick] at hmem
      exact hmem
  · by_cases hidle : (tickMain args env s).1.hasProc = false ∧
        (tickMain args env s).1.currentPrd = none
    · have htick : (tick args env s).2 =
          (tickMain args env s).2 ++ (tickScan env (tickMain args env s).1).2 := by
        simp only [tick]
        rw [if_pos hidle]
      rw [htick, spawnedTasks_append, tickMain_spawn_hasProc args env s hidle.1]
      simpa using (tickScan_starts env (tickMain args env s).1).1
    · have htick : (tick args env s).2 = (tickMain args env s).2 := by
        simp only [tick]
        rw [if_neg hidle]
      rw [htick]
      exact tickMain_spawn_le1 args env s
  · intro s2 t hmem
    exact (tickScan_starts env s2).2 t hmem

theorem foreman_C1_witness :
    (spawnedTasks (tick { maxRetries := 3, maxErrorRetries := 3 } envBase supIdle).2).length ≤ 1 :=
  (foreman_C1_single_job { maxRetries := 3, maxErrorRetries := 3 } envBase supIdle).2.1

end ClaimC1






example : parse_progress "Progress: 0/0 complete".data = some (0, 0) := by decide
example : is_all_complete "Progress: 0/0 complete".data = false := by decide
example : is_all_complete "Progress: 3/3 complete".data = true := by decide
example : is_all_complete "".data = false := by decide
example : parse_progress "  1. ✅ US-001 ok\n  2. ⏳ US-002\n".data = some (1, 2) := by decide

end Foreman
